import Mathlib

/-!
Verification of the kernel-config checking logic of the snapcraft kernel
plugin (`x_kernel.py`): `_do_parse_config`, `_do_check_config`,
`_do_check_initrd` and the `check_new_config` pipeline.

Python strings are modelled as `List Char` (the config data is ASCII), and
the small string primitives the code uses (`str.strip`, `str.split("=")`,
`str.upper`) are given executable structural definitions matching Python's
semantics on that model.  A file is a list of lines (Python's `for line in
f` iterates lines; the trailing newline each carries is removed by the
`strip`, so lines are modelled without it).
-/

/-- Python strings, modelled as lists of characters. -/
abbrev Str := List Char

/-- Embed a Lean string literal into the model. -/
def str (s : String) : Str := s.data

/-- The whitespace characters of Python's default `str.strip`. -/
def pyIsSpace (c : Char) : Bool :=
  c = ' ' || c = '\t' || c = '\n' || c = '\r' || c = '\x0b' || c = '\x0c'

/-- Python `str.strip()`: remove leading and trailing whitespace. -/
def pyStrip (s : Str) : Str :=
  ((s.dropWhile pyIsSpace).reverse.dropWhile pyIsSpace).reverse

/-- Python `str.upper()` on one ASCII character. -/
def pyToUpper (c : Char) : Char :=
  if 'a' ≤ c ∧ c ≤ 'z' then Char.ofNat (c.toNat - 32) else c

/-- Python `str.upper()`. -/
def pyUpper (s : Str) : Str := s.map pyToUpper

/-- Python `s.split("=")`: split on every occurrence of `'='`, keeping
empty tokens; the empty string yields one empty token. -/
def splitEq : Str → List Str
  | [] => [[]]
  | c :: rest =>
    if c = '=' then [] :: splitEq rest
    else
      match splitEq rest with
      | [] => [[c]]
      | t :: ts => (c :: t) :: ts

/-! ## Required-feature tables (module-level constants of `x_kernel.py`) -/

def required_generic : List Str :=
  [str "DEVTMPFS", str "DEVTMPFS_MOUNT", str "TMPFS_POSIX_ACL", str "IPV6",
   str "SYSVIPC", str "SYSVIPC_SYSCTL", str "VFAT_FS",
   str "NLS_CODEPAGE_437", str "NLS_ISO8859_1"]

def required_security : List Str :=
  [str "SECURITY", str "SECURITY_APPARMOR", str "SYN_COOKIES",
   str "STRICT_DEVMEM", str "DEFAULT_SECURITY_APPARMOR", str "SECCOMP",
   str "SECCOMP_FILTER", str "CC_STACKPROTECTOR",
   str "CC_STACKPROTECTOR_STRONG", str "DEBUG_RODATA",
   str "DEBUG_SET_MODULE_RONX"]

def required_snappy : List Str :=
  [str "RD_LZMA", str "KEYS", str "ENCRYPTED_KEYS", str "SQUASHFS",
   str "SQUASHFS_XATTR", str "SQUASHFS_XZ",
   str "DEVPTS_MULTIPLE_INSTANCES"]

def required_systemd : List Str :=
  [str "DEVTMPFS", str "CGROUPS", str "INOTIFY_USER", str "SIGNALFD",
   str "TIMERFD", str "EPOLL", str "NET", str "SYSFS", str "PROC_FS",
   str "FHANDLE", str "BLK_DEV_BSG", str "NET_NS", str "IPV6",
   str "AUTOFS4_FS", str "TMPFS_POSIX_ACL", str "TMPFS_XATTR",
   str "SECCOMP"]

def required_boot : List Str := [str "squashfs"]

/-- The concatenation `required_generic + required_security +
required_snappy + required_systemd` formed in `_do_check_config`. -/
def required_opts : List Str :=
  required_generic ++ required_security ++ required_snappy ++ required_systemd

/-! ## `_do_parse_config` -/

/-- One iteration of the `for line in f` loop body of `_do_parse_config`:
strip the line, split on `'='`, and when exactly two tokens result compare
the upper-cased value with `"Y"`/`"M"`, appending the upper-cased key to
the builtin (resp. modules) accumulator. -/
def parseLine (bm : List Str × List Str) (line : Str) : List Str × List Str :=
  let tok := splitEq (pyStrip line)
  if tok.length = 2 then
    let opt := pyUpper (tok.getD 0 [])
    let val := pyUpper (tok.getD 1 [])
    if val = str "Y" then (bm.1 ++ [opt], bm.2)
    else if val = str "M" then (bm.1, bm.2 ++ [opt])
    else bm
  else bm

/-- The function `_do_parse_config`, with the file contents given as its list of lines:
fold the loop body over the lines starting from two empty accumulators. -/
def do_parse_config (lines : List Str) : List Str × List Str :=
  lines.foldl parseLine ([], [])

/-! ## `_do_check_config` -/

/-- The warning header `msg` of `_do_check_config`. -/
def configMsg : Str :=
  str ("**** WARNING **** WARNING **** WARNING **** WARNING ****\n" ++
       "Your kernel config is missing some features that Ubuntu Core " ++
       "recommends or requires.\n" ++
       "While we will not prevent you from building this kernel snap, " ++
       "we suggest you take a look at these:\n")

/-- The missing-option list accumulated by the loop of `_do_check_config`:
for each required code, skip it when `CONFIG_<code>` is in `builtin` or in
`modules`, otherwise append `CONFIG_<code>`. -/
def do_check_config_missing (builtin modules : List Str) : List Str :=
  required_opts.foldl
    (fun missing code =>
      let opt := str "CONFIG_" ++ code
      if builtin.contains opt || modules.contains opt then missing
      else missing ++ [opt])
    []

/-- The per-option `note` computed inside the warning loop of
`_do_check_config`. -/
def noteFor (opt : Str) : Str :=
  if opt = str "CONFIG_CC_STACKPROTECTOR_STRONG" then
    str "(4.1.x and later versions only)"
  else if opt = str "CONFIG_DEVPTS_MULTIPLE_INSTANCES" then
    str "(4.8.x and earlier versions only)"
  else []

/-- The warning `_do_check_config` echoes: `none` when the missing list is
empty (no `click.echo` call), otherwise the combined string built by
`warn += f"{opt} {note}\n"` starting from `f"\n{msg}\n"`. -/
def do_check_config_warn (builtin modules : List Str) : Option Str :=
  let missing := do_check_config_missing builtin modules
  if missing.isEmpty then none
  else some (missing.foldl
    (fun warn opt => warn ++ opt ++ str " " ++ noteFor opt ++ str "\n")
    (str "\n" ++ configMsg ++ str "\n"))

/-! ## `_do_check_initrd` -/

/-- The warning header `msg` of `_do_check_initrd`. -/
def initrdMsg : Str :=
  str ("**** WARNING **** WARNING **** WARNING **** WARNING ****\n" ++
       "The following features are deemed boot essential for\n" ++
       "ubuntu core, consider making them static[=Y] or adding\n" ++
       "the corresponding module to initrd:\n")

/-- The missing-option list accumulated by the loop of `_do_check_initrd`:
for each boot code, `CONFIG_<CODE>` is skipped when it is in `builtin`, or
when it is in `modules` and the (lowercase) code is in the caller's
`kernel_initrd_modules` list; otherwise it is appended. -/
def do_check_initrd_missing (builtin modules initrd_modules : List Str) :
    List Str :=
  required_boot.foldl
    (fun missing code =>
      let opt := str "CONFIG_" ++ pyUpper code
      if builtin.contains opt then missing
      else if modules.contains opt && initrd_modules.contains code then
        missing
      else missing ++ [opt])
    []

/-- The warning `_do_check_initrd` echoes: `none` when nothing is missing,
otherwise the string built by `warn += f"{opt}\n"` from `f"\n{msg}\n"`. -/
def do_check_initrd_warn (builtin modules initrd_modules : List Str) :
    Option Str :=
  let missing := do_check_initrd_missing builtin modules initrd_modules
  if missing.isEmpty then none
  else some (missing.foldl
    (fun warn opt => warn ++ opt ++ str "\n")
    (str "\n" ++ initrdMsg ++ str "\n"))

/-! ## The `check_new_config` pipeline -/

/-- Errors the pipeline can raise; reading an unreadable file raises an
`OSError` (an I/O error), the only failure point of the pipeline. -/
inductive PyErr where
  | ioError (path : Str)
deriving DecidableEq, Repr

/-- A file system: maps a path to the file's lines, or `none` when the
file cannot be read. -/
def FileSys := Str → Option (List Str)

/-- Python's `open(config_path)` + iteration: returns the lines, or raises
an I/O error when the file cannot be read. -/
def open_lines (fs : FileSys) (path : Str) : Except PyErr (List Str) :=
  match fs path with
  | some lines => Except.ok lines
  | none => Except.error (PyErr.ioError path)

/-- The list of warnings (zero, one or two) that the two checks echo. -/
def check_warnings (builtin modules initrd_modules : List Str) : List Str :=
  (do_check_config_warn builtin modules).toList ++
  (do_check_initrd_warn builtin modules initrd_modules).toList

/-- The method `check_new_config`: parse the config at `path`, then run
`_do_check_config` and `_do_check_initrd`.  The only fallible step is
opening the file; nothing catches or translates its error. -/
def check_new_config (fs : FileSys) (path : Str) (initrd_modules : List Str) :
    Except PyErr (List Str) := do
  let lines ← open_lines fs path
  let bm := do_parse_config lines
  pure (check_warnings bm.1 bm.2 initrd_modules)

/-! ## State-transformer view of the two checks (for the frame claim) -/

/-- The state the two check methods can see: the two parsed lists, the
caller's `kernel_initrd_modules` option, the console (`click.echo`
appends to it) and the file system. -/
structure CheckState where
  builtin : List Str
  modules : List Str
  initrd_modules : List Str
  console : List Str
  files : List (Str × List Str)
deriving Repr

/-- Model of `click.echo`: append one message to the console stream. -/
def echo (msg : Str) (st : CheckState) : CheckState :=
  { st with console := st.console ++ [msg] }

/-- The method `_do_check_config` as a state transformer: echo its warning if any. -/
def run_check_config (st : CheckState) : CheckState :=
  match do_check_config_warn st.builtin st.modules with
  | some w => echo w st
  | none => st

/-- The method `_do_check_initrd` as a state transformer: echo its warning if any. -/
def run_check_initrd (st : CheckState) : CheckState :=
  match do_check_initrd_warn st.builtin st.modules st.initrd_modules with
  | some w => echo w st
  | none => st

/-- Both checks, in the order `check_new_config` runs them. -/
def run_checks (st : CheckState) : CheckState :=
  run_check_initrd (run_check_config st)

/-! ## Spec-side description of the parser, and parser lemmas -/

/-- Stated from the specification's words: for a line, after stripping and
splitting on `'='`, when exactly two tokens result and the upper-cased
right token equals `v`, yield the upper-cased left token. -/
def lineKey (v : Str) (line : Str) : Option Str :=
  match splitEq (pyStrip line) with
  | [l, r] => if pyUpper r = v then some (pyUpper l) else none
  | _ => none

/-- Stated from the specification's words: the parser's result is, in file
order, the keys of the `Y`-valued lines and the keys of the `M`-valued
lines; all other lines contribute to neither collection. -/
def parse_config_spec (lines : List Str) : List Str × List Str :=
  (lines.filterMap (lineKey (str "Y")), lines.filterMap (lineKey (str "M")))

lemma str_Y_ne_M : str "Y" ≠ str "M" := by decide

lemma str_M_ne_Y : str "M" ≠ str "Y" := by decide

lemma parse_foldl_eq (lines : List Str) : ∀ b m : List Str,
    lines.foldl parseLine (b, m)
      = (b ++ lines.filterMap (lineKey (str "Y")),
         m ++ lines.filterMap (lineKey (str "M"))) := by
  induction lines with
  | nil => simp
  | cons l ls ih =>
    intro b m
    simp only [List.foldl_cons, List.filterMap_cons]
    rcases h : splitEq (pyStrip l) with _ | ⟨t0, _ | ⟨t1, _ | ⟨t2, ts⟩⟩⟩
    · simp [parseLine, h, lineKey, ih b m]
    · simp [parseLine, h, lineKey, ih b m]
    · by_cases hY : pyUpper t1 = str "Y"
      · have hM : pyUpper t1 ≠ str "M" := by rw [hY]; decide
        simp [parseLine, h, lineKey, hY, hM, str_Y_ne_M, ih (b ++ [pyUpper t0]) m]
      · by_cases hM : pyUpper t1 = str "M"
        · simp [parseLine, h, lineKey, hY, hM, str_M_ne_Y, ih b (m ++ [pyUpper t0])]
        · simp [parseLine, h, lineKey, hY, hM, ih b m]
    · simp [parseLine, h, lineKey, ih b m]

lemma parse_eq_spec (lines : List Str) :
    do_parse_config lines = parse_config_spec lines := by
  simpa [do_parse_config, parse_config_spec] using parse_foldl_eq lines [] []

/-! ## Lemmas about the two check loops -/

lemma foldl_if_skip {α β : Type} (p : α → Bool) (g : α → β) :
    ∀ (l : List α) (acc : List β),
      l.foldl (fun ms a => if p a then ms else ms ++ [g a]) acc
        = acc ++ (l.filter (fun a => !p a)).map g := by
  intro l
  induction l with
  | nil => simp
  | cons a as ih =>
    intro acc
    by_cases h : p a <;> simp [h, ih, List.append_assoc]

lemma check_config_missing_eq (b m : List Str) :
    do_check_config_missing b m
      = (required_opts.filter (fun code =>
          !(b.contains (str "CONFIG_" ++ code)
            || m.contains (str "CONFIG_" ++ code)))).map
          (fun code => str "CONFIG_" ++ code) := by
  simpa [do_check_config_missing] using
    foldl_if_skip
      (fun code => b.contains (str "CONFIG_" ++ code)
        || m.contains (str "CONFIG_" ++ code))
      (fun code => str "CONFIG_" ++ code) required_opts []

/-- The config warning line for one missing option, `f"{opt} {note}\n"`. -/
def configLine (opt : Str) : Str :=
  opt ++ str " " ++ noteFor opt ++ str "\n"

lemma config_warn_foldl (missing : List Str) : ∀ acc : Str,
    missing.foldl
      (fun warn opt => warn ++ opt ++ str " " ++ noteFor opt ++ str "\n") acc
      = acc ++ (missing.map configLine).flatten := by
  induction missing with
  | nil => simp
  | cons o os ih =>
    intro acc
    rw [List.foldl_cons, ih, List.map_cons, List.flatten_cons, configLine]
    simp [List.append_assoc]

lemma check_config_warn_eq_none_iff (b m : List Str) :
    do_check_config_warn b m = none ↔ do_check_config_missing b m = [] := by
  unfold do_check_config_warn
  by_cases h : (do_check_config_missing b m).isEmpty
  · simp [h, List.isEmpty_iff.mp h]
  · have hne : ¬ do_check_config_missing b m = [] := by
      intro hh; rw [hh] at h; simp at h
    simp [h, hne]

lemma check_config_warn_eq_some (b m : List Str)
    (h : do_check_config_missing b m ≠ []) :
    do_check_config_warn b m
      = some ((str "\n" ++ configMsg ++ str "\n") ++
          ((do_check_config_missing b m).map configLine).flatten) := by
  have hne : (do_check_config_missing b m).isEmpty = false := by
    simp [List.isEmpty_iff, h]
  unfold do_check_config_warn
  simp only [hne, Bool.false_eq_true, if_false, config_warn_foldl]

lemma initrd_missing_eq (b m i : List Str) :
    do_check_initrd_missing b m i
      = (if b.contains (str "CONFIG_SQUASHFS")
            || (m.contains (str "CONFIG_SQUASHFS")
                && i.contains (str "squashfs"))
         then [] else [str "CONFIG_SQUASHFS"]) := by
  have hsq : str "CONFIG_" ++ pyUpper (str "squashfs") = str "CONFIG_SQUASHFS" := by
    decide
  unfold do_check_initrd_missing required_boot
  simp only [List.foldl_cons, List.foldl_nil, hsq]
  by_cases hb : str "CONFIG_SQUASHFS" ∈ b <;>
    by_cases hm : str "CONFIG_SQUASHFS" ∈ m <;>
      by_cases hi : str "squashfs" ∈ i <;>
        simp [hb, hm, hi]

lemma initrd_warn_none_iff (b m i : List Str) :
    do_check_initrd_warn b m i = none
      ↔ do_check_initrd_missing b m i = [] := by
  unfold do_check_initrd_warn
  by_cases h : (do_check_initrd_missing b m i).isEmpty
  · simp [h, List.isEmpty_iff.mp h]
  · have hne : ¬ do_check_initrd_missing b m i = [] := by
      intro hh; rw [hh] at h; simp at h
    simp [h, hne]

lemma count_filterMap_eq_length_filter {α : Type} (f : α → Option Str)
    (l : List α) (k : Str) :
    (l.filterMap f).count k = (l.filter (fun a => f a == some k)).length := by
  rw [List.count_filterMap, List.countP_eq_length_filter]

/-- C1: for every input file, the parser strips each line, splits on `=`,
keeps only two-token lines, upper-cases both tokens, and adds the key to
`builtin` on value `Y`, to `modules` on value `M`, and nowhere otherwise —
i.e. `_do_parse_config` agrees with the spec-side description. -/
theorem parse_config_matches_spec (lines : List Str) :
    do_parse_config lines = parse_config_spec lines :=
  parse_eq_spec lines

/-- C10: the parser's outputs are ordered lists, not deduplicated sets:
`builtin` (resp. `modules`) has one occurrence of the upper-cased key per
`Y`-valued (resp. `M`-valued) line, in file order; in particular a key
whose `Y`-line appears twice occurs twice in `builtin`. -/
theorem parse_config_outputs_ordered_lists (lines : List Str) (k : Str) :
    (do_parse_config lines).1 = lines.filterMap (lineKey (str "Y"))
    ∧ (do_parse_config lines).2 = lines.filterMap (lineKey (str "M"))
    ∧ (do_parse_config lines).1.count k
        = (lines.filter (fun l => lineKey (str "Y") l == some k)).length
    ∧ (do_parse_config lines).2.count k
        = (lines.filter (fun l => lineKey (str "M") l == some k)).length
    ∧ do_parse_config [str "CONFIG_A=y", str "CONFIG_A=y"]
        = ([str "CONFIG_A", str "CONFIG_A"], []) := by
  have h := parse_eq_spec lines
  refine ⟨?_, ?_, ?_, ?_, by decide⟩ <;>
    simp [h, parse_config_spec, count_filterMap_eq_length_filter]

/-- C2: `_do_check_config` marks each required code (over the
concatenation of the four groups) satisfied exactly when `CONFIG_<code>`
is in `builtin` or in `modules`; it warns exactly when some code is
missing, and the single combined warning lists the missing codes in the
groups' declaration order. -/
theorem check_config_missing_and_warning (b m : List Str) :
    do_check_config_missing b m
      = (required_opts.filter (fun code =>
          !(b.contains (str "CONFIG_" ++ code)
            || m.contains (str "CONFIG_" ++ code)))).map
          (fun code => str "CONFIG_" ++ code)
    ∧ (do_check_config_warn b m = none ↔
        ∀ code ∈ required_opts,
          str "CONFIG_" ++ code ∈ b ∨ str "CONFIG_" ++ code ∈ m)
    ∧ (do_check_config_missing b m ≠ [] →
        do_check_config_warn b m
          = some ((str "\n" ++ configMsg ++ str "\n") ++
              ((do_check_config_missing b m).map configLine).flatten)) := by
  refine ⟨check_config_missing_eq b m, ?_,
    check_config_warn_eq_some b m⟩
  rw [check_config_warn_eq_none_iff, check_config_missing_eq]
  simp [List.filter_eq_nil_iff, or_iff_not_imp_left]

/-- All required options present as builtins. -/
def allConfigs : List Str := required_opts.map (fun c => str "CONFIG_" ++ c)

set_option maxRecDepth 20000 in
theorem check_config_missing_and_warning_inst :
    do_check_config_warn allConfigs [] = none
    ∧ do_check_config_warn [] []
        = some ((str "\n" ++ configMsg ++ str "\n") ++
            ((do_check_config_missing [] []).map configLine).flatten) :=
  ⟨(check_config_missing_and_warning allConfigs []).2.1.mpr (by decide),
   (check_config_missing_and_warning [] []).2.2 (by decide)⟩

/-- C3: the boot-essential check treats `CONFIG_SQUASHFS` (the only boot
code) as satisfied when it is builtin, or a module whose lowercase name
`squashfs` is among the caller's initrd modules; it warns exactly on the
missing case.  In particular module-without-initrd-entry warns and
module-with-initrd-entry does not. -/
theorem check_initrd_squashfs (b m i : List Str) :
    do_check_initrd_missing b m i
      = (if b.contains (str "CONFIG_SQUASHFS")
            || (m.contains (str "CONFIG_SQUASHFS")
                && i.contains (str "squashfs"))
         then [] else [str "CONFIG_SQUASHFS"])
    ∧ (str "CONFIG_SQUASHFS" ∉ b → str "CONFIG_SQUASHFS" ∈ m →
        str "squashfs" ∉ i → do_check_initrd_warn b m i ≠ none)
    ∧ (str "CONFIG_SQUASHFS" ∈ m → str "squashfs" ∈ i →
        do_check_initrd_warn b m i = none) := by
  refine ⟨initrd_missing_eq b m i, ?_, ?_⟩
  · intro hnb hm hni hcontra
    rw [initrd_warn_none_iff, initrd_missing_eq] at hcontra
    have hb : b.contains (str "CONFIG_SQUASHFS") = false := by simp [hnb]
    have hi : i.contains (str "squashfs") = false := by simp [hni]
    rw [hb, hi] at hcontra
    simp at hcontra
  · intro hm hi
    rw [initrd_warn_none_iff, initrd_missing_eq]
    have hm' : m.contains (str "CONFIG_SQUASHFS") = true := by simp [hm]
    have hi' : i.contains (str "squashfs") = true := by simp [hi]
    rw [hm', hi']
    simp

theorem check_initrd_squashfs_inst :
    do_check_initrd_warn [] [str "CONFIG_SQUASHFS"] [] ≠ none
    ∧ do_check_initrd_warn [] [str "CONFIG_SQUASHFS"] [str "squashfs"]
        = none :=
  ⟨(check_initrd_squashfs [] [str "CONFIG_SQUASHFS"] []).2.1
      (by decide) (by decide) (by decide),
   (check_initrd_squashfs [] [str "CONFIG_SQUASHFS"] [str "squashfs"]).2.2
      (by decide) (by decide)⟩

/-! ## Duplicated codes and the single-missing claim -/

/-- All `CONFIG_` options for every required code except `DEVTMPFS` (which the
tables declare in both the generic and the systemd group). -/
def cexBuiltin : List Str :=
  (required_opts.filter (fun c => c ≠ str "DEVTMPFS")).map
    (fun c => str "CONFIG_" ++ c)

set_option maxRecDepth 20000 in
/-- C4 counterexample: with every required option except `CONFIG_DEVTMPFS`
builtin, the missing list names `CONFIG_DEVTMPFS` twice (once per group
that declares it), not exactly once. -/
theorem single_missing_not_unique :
    (∀ x ∈ required_opts, x ≠ str "DEVTMPFS" →
      str "CONFIG_" ++ x ∈ cexBuiltin ∨ str "CONFIG_" ++ x ∈ ([] : List Str))
    ∧ str "CONFIG_DEVTMPFS" ∉ cexBuiltin
    ∧ (do_check_config_missing cexBuiltin []).count (str "CONFIG_DEVTMPFS")
        = 2 := by
  refine ⟨by decide, by decide, by decide⟩

/-- C4 (amended): when every required code except `c` is satisfied and
`c` is not, the missing list is `CONFIG_<c>` repeated once per occurrence
of `c` in the concatenated groups (at the position of those occurrences);
for a code declared in a single group that is exactly one entry. -/
theorem check_config_single_missing (b m : List Str) (c : Str)
    (hc : c ∈ required_opts)
    (hsat : ∀ x ∈ required_opts, x ≠ c →
      str "CONFIG_" ++ x ∈ b ∨ str "CONFIG_" ++ x ∈ m)
    (hnb : str "CONFIG_" ++ c ∉ b) (hnm : str "CONFIG_" ++ c ∉ m) :
    do_check_config_missing b m
      = List.replicate (required_opts.count c) (str "CONFIG_" ++ c)
    ∧ 0 < required_opts.count c := by
  constructor
  · rw [check_config_missing_eq]
    have hfilter : required_opts.filter (fun code =>
        !(b.contains (str "CONFIG_" ++ code)
          || m.contains (str "CONFIG_" ++ code)))
        = required_opts.filter (fun code => code == c) := by
      apply List.filter_congr
      intro x hx
      by_cases hxc : x = c
      · subst hxc
        simp [hnb, hnm]
      · rcases hsat x hx hxc with h | h <;> simp [h, hxc]
    rw [hfilter, List.filter_beq, List.map_replicate]
  · exact List.count_pos_iff.mpr hc

/-- All `CONFIG_` options for every required code except `SIGNALFD` (declared
only in the systemd group). -/
def witBuiltin : List Str :=
  (required_opts.filter (fun c => c ≠ str "SIGNALFD")).map
    (fun c => str "CONFIG_" ++ c)

set_option maxRecDepth 20000 in
theorem check_config_single_missing_inst :
    do_check_config_missing witBuiltin []
      = List.replicate (required_opts.count (str "SIGNALFD"))
          (str "CONFIG_SIGNALFD")
    ∧ 0 < required_opts.count (str "SIGNALFD") :=
  check_config_single_missing witBuiltin [] (str "SIGNALFD")
    (by decide) (by decide) (by decide) (by decide)

/-- C6: in the completeness warning exactly the two hardcoded options
carry a parenthetical note — `CONFIG_CC_STACKPROTECTOR_STRONG` gets
"(4.1.x and later versions only)" and `CONFIG_DEVPTS_MULTIPLE_INSTANCES`
gets "(4.8.x and earlier versions only)" — and every other missing option
is listed with the empty note. -/
theorem config_warning_annotations (b m : List Str) :
    (∀ opt : Str, noteFor opt ≠ []
        ↔ (opt = str "CONFIG_CC_STACKPROTECTOR_STRONG"
           ∨ opt = str "CONFIG_DEVPTS_MULTIPLE_INSTANCES"))
    ∧ noteFor (str "CONFIG_CC_STACKPROTECTOR_STRONG")
        = str "(4.1.x and later versions only)"
    ∧ noteFor (str "CONFIG_DEVPTS_MULTIPLE_INSTANCES")
        = str "(4.8.x and earlier versions only)"
    ∧ (do_check_config_missing b m ≠ [] →
        do_check_config_warn b m
          = some ((str "\n" ++ configMsg ++ str "\n") ++
              ((do_check_config_missing b m).map
                (fun opt => opt ++ str " " ++ noteFor opt ++ str "\n")).flatten)) := by
  refine ⟨?_, by decide, by decide, ?_⟩
  · intro opt
    by_cases h1 : opt = str "CONFIG_CC_STACKPROTECTOR_STRONG"
    · subst h1
      exact iff_of_true (by decide) (Or.inl rfl)
    · by_cases h2 : opt = str "CONFIG_DEVPTS_MULTIPLE_INSTANCES"
      · subst h2
        exact iff_of_true (by decide) (Or.inr rfl)
      · have hnote : noteFor opt = [] := by simp [noteFor, h1, h2]
        simp [hnote, h1, h2]
  · intro h
    have hfun : configLine = fun opt => opt ++ str " " ++ noteFor opt ++ str "\n" :=
      rfl
    simpa [hfun] using check_config_warn_eq_some b m h

theorem config_warning_annotations_inst :
    do_check_config_warn [] []
      = some ((str "\n" ++ configMsg ++ str "\n") ++
          ((do_check_config_missing [] []).map
            (fun opt => opt ++ str " " ++ noteFor opt ++ str "\n")).flatten) :=
  (config_warning_annotations [] []).2.2.2 (by decide)

/-! ## Advisory-only behaviour, error propagation, frame conditions -/

/-- The two requirement checks as one pipeline step with an explicit error
channel; neither check contains a raising operation, so the step is a
`pure` computation of the warning list. -/
def run_config_checks (b m i : List Str) : Except PyErr (List Str) :=
  Except.ok (check_warnings b m i)

/-- C5: for any `builtin`, `modules` and initrd-module list the two checks
complete normally — they never produce an error, only an advisory list of
zero, one or two warnings. -/
theorem checks_never_fail (b m i : List Str) :
    run_config_checks b m i = Except.ok (check_warnings b m i)
    ∧ (∀ e : PyErr, run_config_checks b m i ≠ Except.error e)
    ∧ (check_warnings b m i).length ≤ 2 := by
  refine ⟨rfl, fun e h => by simp [run_config_checks] at h, ?_⟩
  unfold check_warnings
  cases do_check_config_warn b m <;>
    cases do_check_initrd_warn b m i <;>
      simp [Option.toList]

theorem checks_never_fail_inst :
    run_config_checks [] [] [] ≠ Except.error (PyErr.ioError []) :=
  (checks_never_fail [] [] []).2.1 (PyErr.ioError [])

/-- C7: when the config file cannot be read, `check_new_config` propagates
the I/O error uncaught: the result is that error, and in particular no
warning list (so neither requirement check ran). -/
theorem unreadable_config_propagates (fs : FileSys) (path : Str)
    (i : List Str) (h : fs path = none) :
    check_new_config fs path i = Except.error (PyErr.ioError path)
    ∧ ∀ ws : List Str, check_new_config fs path i ≠ Except.ok ws := by
  have hopen : open_lines fs path = Except.error (PyErr.ioError path) := by
    simp [open_lines, h]
  have herr : check_new_config fs path i = Except.error (PyErr.ioError path) := by
    simp [check_new_config, hopen]
  exact ⟨herr, fun ws hws => by rw [herr] at hws; exact Except.noConfusion hws⟩

theorem unreadable_config_propagates_inst :
    check_new_config (fun _ => none) [] [] = Except.error (PyErr.ioError []) :=
  (unreadable_config_propagates (fun _ => none) [] [] rfl).1

/-- C8: the two checks only append their warnings to the console: the
`builtin`, `modules` and `kernel_initrd_modules` inputs and the file
system are exactly as before. -/
theorem checks_preserve_state (st : CheckState) :
    (run_checks st).builtin = st.builtin
    ∧ (run_checks st).modules = st.modules
    ∧ (run_checks st).initrd_modules = st.initrd_modules
    ∧ (run_checks st).files = st.files
    ∧ (run_checks st).console
        = st.console
          ++ check_warnings st.builtin st.modules st.initrd_modules := by
  unfold run_checks run_check_initrd run_check_config echo check_warnings
  cases do_check_config_warn st.builtin st.modules <;>
    cases do_check_initrd_warn st.builtin st.modules st.initrd_modules <;>
      simp [Option.toList, List.append_assoc]

/-! ## Whitespace around the separator -/

lemma pyToUpper_of_space (c : Char) (h : pyIsSpace c = true) :
    pyToUpper c = c := by
  simp [pyIsSpace] at h
  rcases h with ((((h | h) | h) | h) | h) | h <;> subst h <;> decide

/-- C9 counterexample: the line `"CONFIG_X =Y"` carries whitespace next to
the separator (on the key side) yet populates `builtin`, with the
whitespace kept in the stored key. -/
theorem whitespace_key_line_populates :
    do_parse_config [str "CONFIG_X =Y"] = ([str "CONFIG_X "], [])
    ∧ ([str "CONFIG_X "], ([] : List Str)) ≠ (([] : List Str), []) :=
  ⟨by decide, by decide⟩

/-- C9 (amended): a line whose VALUE token carries whitespace (such as
`"CONFIG_X = Y"`) populates neither collection — only the whole line is
stripped, so the upper-cased value cannot equal `Y` or `M` — while
whitespace on the key side alone does not prevent population: the key is
stored with its whitespace. -/
theorem whitespace_value_line_ignored (b m : List Str) (line k v : Str)
    (hsplit : splitEq (pyStrip line) = [k, v])
    (hw : ∃ c ∈ v, pyIsSpace c = true) :
    parseLine (b, m) line = (b, m)
    ∧ do_parse_config [str "CONFIG_X =Y"] = ([str "CONFIG_X "], []) := by
  obtain ⟨c, hcv, hcw⟩ := hw
  have hup : pyToUpper c = c := pyToUpper_of_space c hcw
  have hY : str "Y" = ['Y'] := by decide
  have hM : str "M" = ['M'] := by decide
  have hcY : pyUpper v ≠ str "Y" := by
    intro h
    have hmem : pyToUpper c ∈ pyUpper v := List.mem_map_of_mem _ hcv
    rw [h, hY, hup] at hmem
    rw [List.mem_singleton.mp hmem] at hcw
    exact absurd hcw (by decide)
  have hcM : pyUpper v ≠ str "M" := by
    intro h
    have hmem : pyToUpper c ∈ pyUpper v := List.mem_map_of_mem _ hcv
    rw [h, hM, hup] at hmem
    rw [List.mem_singleton.mp hmem] at hcw
    exact absurd hcw (by decide)
  refine ⟨?_, by decide⟩
  simp [parseLine, hsplit, hcY, hcM]

theorem whitespace_value_line_ignored_inst :
    parseLine (([] : List Str), ([] : List Str)) (str "CONFIG_X = Y")
      = ([], []) :=
  (whitespace_value_line_ignored [] [] (str "CONFIG_X = Y")
      (str "CONFIG_X ") (str " Y") (by decide)
      ⟨' ', by decide, by decide⟩).1
